import Mathlib

/-!
Shallow embedding of the derbyjson crate (src/lib.rs, src/jamdata.rs,
src/teamdata.rs): the DerbyJSON document model together with the
serde-derived decoding and encoding behaviour of its types, and the
`load_roster` validator. JSON values are modelled by an inductive `Json`
type; `serde_json::Number` payloads are modelled as integers. Decoders
follow the semantics of the serde derive attributes used in the source:
internally tagged enums (`tag = "event"`), untagged enums tried in
declaration order, `deny_unknown_fields`, `default`, field renames and
`rename_all` casing.
-/

namespace DerbyJson

/-- Model of a JSON value (serde_json::Value restricted to what the
    crate's data model touches; numbers are integers). -/
inductive Json where
  | null
  | bool (b : Bool)
  | num (n : Int)
  | str (s : String)
  | arr (elems : List Json)
  | obj (fields : List (String × Json))

/-- Decode-level errors produced by the serde-derived deserializers.
    These model the kinds of serde_json errors, per the spec's taxonomy. -/
inductive DecodeError where
  | typeMismatch (expected : String)
  | missingField (name : String)
  | unknownVariant (name : String)
  | unrecognizedEventKind (tag : String)
  | unexpectedField (name : String)
  | untaggedMismatch (enumName : String)
  | invalidValue (what : String)
deriving DecidableEq

/-- Look up the first entry with the given key in a JSON object's field
    list, as serde's map access does for a struct field. -/
def lookupField : List (String × Json) → String → Option Json
  | [], _ => none
  | (k, v) :: rest, name => if k = name then some v else lookupField rest name

/-- Decode a required struct field: missing key is an error. -/
def reqField (fields : List (String × Json)) (name : String)
    (dec : Json → Except DecodeError α) : Except DecodeError α :=
  match lookupField fields name with
  | none => .error (.missingField name)
  | some j => dec j

/-- Decode an Option value: JSON null is None, anything else is Some. -/
def decOptVal (dec : Json → Except DecodeError α) (j : Json) :
    Except DecodeError (Option α) :=
  match j with
  | .null => .ok none
  | j => (dec j).map some

/-- Decode an `Option` struct field: absent key or null value is None. -/
def optField (fields : List (String × Json)) (name : String)
    (dec : Json → Except DecodeError α) : Except DecodeError (Option α) :=
  match lookupField fields name with
  | none => .ok none
  | some j => decOptVal dec j

/-- Decode a field marked `#[serde(default)]`: absent key yields the
    default; a present value (null included) is decoded normally. -/
def defaultField (fields : List (String × Json)) (name : String)
    (dec : Json → Except DecodeError α) (dflt : α) : Except DecodeError α :=
  match lookupField fields name with
  | none => .ok dflt
  | some j => dec j

/-- Decode each element of a JSON array in order. -/
def decList (dec : Json → Except DecodeError α) :
    List Json → Except DecodeError (List α)
  | [] => .ok []
  | j :: rest => do
    let x ← dec j
    let xs ← decList dec rest
    pure (x :: xs)

/-- Decode a Vec field value: must be a JSON array. -/
def decArr (dec : Json → Except DecodeError α) (j : Json) :
    Except DecodeError (List α) :=
  match j with
  | .arr l => decList dec l
  | _ => .error (.typeMismatch "array")

/-- Decode each value of a JSON object in order (HashMap-typed fields;
    the map is modelled as an association list in input order). -/
def decEntries (dec : Json → Except DecodeError α) :
    List (String × Json) → Except DecodeError (List (String × α))
  | [] => .ok []
  | (k, j) :: rest => do
    let x ← dec j
    let xs ← decEntries dec rest
    pure ((k, x) :: xs)

/-- Decode a HashMap-typed field value: must be a JSON object. -/
def decObjMap (dec : Json → Except DecodeError α) (j : Json) :
    Except DecodeError (List (String × α)) :=
  match j with
  | .obj l => decEntries dec l
  | _ => .error (.typeMismatch "map")

/-- Decode a String. -/
def decString : Json → Except DecodeError String
  | .str s => .ok s
  | _ => .error (.typeMismatch "string")

/-- Decode a bool. -/
def decBool : Json → Except DecodeError Bool
  | .bool b => .ok b
  | _ => .error (.typeMismatch "boolean")

/-- Decode a serde_json::Number (modelled as an integer). -/
def decNumber : Json → Except DecodeError Int
  | .num n => .ok n
  | _ => .error (.typeMismatch "number")

/-- Decode an unsigned machine integer of the given width bound
    (u8 is `Fin 256`, u16 is `Fin 65536`, u32 is `Fin 4294967296`). -/
def decFin (bound : Nat) (j : Json) : Except DecodeError (Fin bound) :=
  match j with
  | .num i =>
    if h : 0 ≤ i ∧ i.toNat < bound then .ok ⟨i.toNat, h.2⟩
    else .error (.invalidValue "integer out of range")
  | _ => .error (.typeMismatch "number")

/-- Decode a raw JSON map field (serde_json::Map of String to Value). -/
def decJsonMap (j : Json) : Except DecodeError (List (String × Json)) :=
  match j with
  | .obj l => .ok l
  | _ => .error (.typeMismatch "map")

/-- Encode an Option: serde without skip attributes emits None as null. -/
def encOpt (enc : α → Json) : Option α → Json
  | none => .null
  | some x => enc x

/-- Encode a list as a JSON array. -/
def encArr (enc : α → Json) (l : List α) : Json :=
  .arr (l.map enc)

/-- Encode an unsigned machine integer. -/
def encFin {bound : Nat} (x : Fin bound) : Json :=
  .num x.val

/-! Data model from src/jamdata.rs and src/lib.rs leaf types. -/

/-- A note about something that happened (src/lib.rs `Note`). -/
structure Note where
  note : String
  author : Option String
deriving DecidableEq

/-- A skater's position in a jam (src/jamdata.rs `Position`),
    kebab-case externally. -/
inductive Position where
  | Jammer
  | Pivot
  | Blocker
deriving DecidableEq

/-- Penalty severity (src/jamdata.rs `PenaltySeverity`), kebab-case. -/
inductive PenaltySeverity where
  | No
  | Minor
  | Major
  | Expulsion
deriving DecidableEq

/-- Reason a skater left the penalty box early
    (src/jamdata.rs `PrematureExitReason`), kebab-case. -/
inductive PrematureExitReason where
  | Official
  | Skater
  | Rescinded
  | Mistake
deriving DecidableEq

/-- Reason a skater left the track (src/jamdata.rs `LeaveTrackReason`),
    kebab-case; the source spells the third variant `Malfuction`. -/
inductive LeaveTrackReason where
  | Penalty
  | Injury
  | Malfuction
  | Other
deriving DecidableEq

/-- Type of ghost point (src/jamdata.rs `GhostPointType`), no rename. -/
inductive GhostPointType where
  | L
  | J
  | B
  | P
  | N
  | O
  | G
deriving DecidableEq

/-- A ghost point (src/jamdata.rs `GhostPoint`). -/
structure GhostPoint where
  skater : Option String
  ghost_point : GhostPointType
deriving DecidableEq

/-- A skater involved in a penalty (src/jamdata.rs `Involved`); its
    `notes` field carries `#[serde(default)]`. -/
structure Involved where
  skater : String
  notes : List Note
deriving DecidableEq

/-- A penalty-box substitute (src/jamdata.rs `Substitute`). -/
structure Substitute where
  skater : String
  reason : String
deriving DecidableEq

/-- A point in time (src/jamdata.rs `Timestamp`): an externally tagged
    enum with kebab-case variant names. `Wall` and `Period` carry strings;
    `Epoch`, `Seconds` and `Jam` carry serde_json::Number payloads. -/
inductive Timestamp where
  | Wall (time : String)
  | Epoch (n : Int)
  | Period (time : String)
  | Seconds (n : Int)
  | Jam (n : Int)
deriving DecidableEq

/-- Team designation in a timeout (src/jamdata.rs `TeamType`), no rename:
    external spellings are Home, Away, Officials. -/
inductive TeamType where
  | Home
  | Away
  | Officials
deriving DecidableEq

/-- An event happening during a jam (src/jamdata.rs `JamEvent`):
    internally tagged enum with `tag = "event"`; u8 fields are `Fin 256`.
    `ExitBox`, `LeaveTrack` and `ReturnTrack` are `rename_all` kebab-case. -/
inductive JamEvent where
  | Lineup (skater : String) (start_in_box : Bool) (position : Position)
  | PackLap (timestamp : Option Timestamp) (count : Option (Fin 256))
  | Penalty (timestamp : Option Timestamp) (skater : String)
      (penalty : String) (severity : Option PenaltySeverity)
      (rescinded : Option Bool) (involved : Option (List Involved))
      (cue : Option String)
  | Pass (timestamp : Option Timestamp) (completed : Option Bool)
      (number : Fin 256) (points : Option (Fin 256))
      (skater : Option String) (ghost_points : Option (List GhostPoint))
  | StarPass (timestamp : Option Timestamp) (skater : Option String)
      (team : Option String) (completed : Option Bool)
      (failure : Option String)
  | Lead (timestamp : Option Timestamp) (skater : String)
  | LostLead (timestamp : Option Timestamp) (skater : String)
  | Call (timestamp : Option Timestamp) (skater : Option String)
      (team : Option String) (official : Option String)
  | EnterBox (timestamp : Option Timestamp) (skater : String)
      (duration : Option Int) (substitute : Option Substitute)
      (notes : Option (List Note))
  | ExitBox (timestamp : Option Timestamp) (skater : String)
      (duration : Option Int) (premature : Option PrematureExitReason)
      (no_skater : Option Bool)
  | BoxTime
  | Injury (timestamp : Option Timestamp) (skater : String)
  | Note (note : String) (author : Option String) (date : Option String)
      (notes : Note)
  | LeaveTrack (timestamp : Option Timestamp) (skater : String)
      (reason : Option LeaveTrackReason) (opposing_pass : Fin 256)
  | ReturnTrack (timestamp : Option Timestamp) (skater : String)
      (opposing_pass : Fin 256)
deriving DecidableEq

/-- A jam (src/jamdata.rs `Jam`); `number` is u16, `duration` u16. -/
structure Jam where
  number : Fin 65536
  timestamp : Option Timestamp
  duration : Option (Fin 65536)
  events : List JamEvent
  notes : List Note
deriving DecidableEq

/-- A clock stoppage (src/jamdata.rs `Timeout`); `duration` is u32 and
    `notes` carries `#[serde(default)]`. -/
structure Timeout where
  timeout : TeamType
  notes : List Note
  injury : Option String
  duration : Fin 4294967296
  timestamp : Option Timestamp
  review : Option String
  resolution : Option String
  retained : Option Bool
deriving DecidableEq

/-- A thing that happens during a period (src/jamdata.rs `ClockEvent`):
    an untagged enum whose variants are declared Note, Jam, Timeout. -/
inductive ClockEvent where
  | Note (n : Note)
  | Jam (j : Jam)
  | Timeout (t : Timeout)
deriving DecidableEq

/-- One period of a game (src/jamdata.rs `Period`); derives Default. -/
structure Period where
  timestamp : Option Timestamp
  «end» : Option Timestamp
  jams : List ClockEvent
deriving DecidableEq

/-- The derived `Period::default()`: Options None, Vec empty. -/
def defaultPeriod : Period :=
  { timestamp := none, «end» := none, jams := [] }

/-! Codecs for the jamdata leaf types. -/

/-- Encode a `Position` (kebab-case unit variant). -/
def encPosition : Position → Json
  | .Jammer => .str "jammer"
  | .Pivot => .str "pivot"
  | .Blocker => .str "blocker"

/-- Decode a `Position`. -/
def decPosition : Json → Except DecodeError Position
  | .str "jammer" => .ok .Jammer
  | .str "pivot" => .ok .Pivot
  | .str "blocker" => .ok .Blocker
  | .str s => .error (.unknownVariant s)
  | _ => .error (.typeMismatch "string")

/-- Encode a `PenaltySeverity` (kebab-case unit variant). -/
def encSeverity : PenaltySeverity → Json
  | .No => .str "no"
  | .Minor => .str "minor"
  | .Major => .str "major"
  | .Expulsion => .str "expulsion"

/-- Decode a `PenaltySeverity`. -/
def decSeverity : Json → Except DecodeError PenaltySeverity
  | .str "no" => .ok .No
  | .str "minor" => .ok .Minor
  | .str "major" => .ok .Major
  | .str "expulsion" => .ok .Expulsion
  | .str s => .error (.unknownVariant s)
  | _ => .error (.typeMismatch "string")

/-- Encode a `PrematureExitReason` (kebab-case unit variant). -/
def encPremature : PrematureExitReason → Json
  | .Official => .str "official"
  | .Skater => .str "skater"
  | .Rescinded => .str "rescinded"
  | .Mistake => .str "mistake"

/-- Decode a `PrematureExitReason`. -/
def decPremature : Json → Except DecodeError PrematureExitReason
  | .str "official" => .ok .Official
  | .str "skater" => .ok .Skater
  | .str "rescinded" => .ok .Rescinded
  | .str "mistake" => .ok .Mistake
  | .str s => .error (.unknownVariant s)
  | _ => .error (.typeMismatch "string")

/-- Encode a `LeaveTrackReason` (kebab-case unit variant). -/
def encLeaveReason : LeaveTrackReason → Json
  | .Penalty => .str "penalty"
  | .Injury => .str "injury"
  | .Malfuction => .str "malfuction"
  | .Other => .str "other"

/-- Decode a `LeaveTrackReason`. -/
def decLeaveReason : Json → Except DecodeError LeaveTrackReason
  | .str "penalty" => .ok .Penalty
  | .str "injury" => .ok .Injury
  | .str "malfuction" => .ok .Malfuction
  | .str "other" => .ok .Other
  | .str s => .error (.unknownVariant s)
  | _ => .error (.typeMismatch "string")

/-- Encode a `GhostPointType` (unit variant, no rename). -/
def encGhostPointType : GhostPointType → Json
  | .L => .str "L"
  | .J => .str "J"
  | .B => .str "B"
  | .P => .str "P"
  | .N => .str "N"
  | .O => .str "O"
  | .G => .str "G"

/-- Decode a `GhostPointType`. -/
def decGhostPointType : Json → Except DecodeError GhostPointType
  | .str "L" => .ok .L
  | .str "J" => .ok .J
  | .str "B" => .ok .B
  | .str "P" => .ok .P
  | .str "N" => .ok .N
  | .str "O" => .ok .O
  | .str "G" => .ok .G
  | .str s => .error (.unknownVariant s)
  | _ => .error (.typeMismatch "string")

/-- Encode a `TeamType` (unit variant, no rename). -/
def encTeamType : TeamType → Json
  | .Home => .str "Home"
  | .Away => .str "Away"
  | .Officials => .str "Officials"

/-- Decode a `TeamType`. -/
def decTeamType : Json → Except DecodeError TeamType
  | .str "Home" => .ok .Home
  | .str "Away" => .ok .Away
  | .str "Officials" => .ok .Officials
  | .str s => .error (.unknownVariant s)
  | _ => .error (.typeMismatch "string")

/-- Encode a `Note` struct. -/
def encNote (n : Note) : Json :=
  .obj [("note", .str n.note), ("author", encOpt Json.str n.author)]

/-- Decode a `Note` struct: `note` required, `author` optional;
    unknown fields are ignored (no deny_unknown_fields). -/
def decNoteS (j : Json) : Except DecodeError Note :=
  match j with
  | .obj fields => do
    let note ← reqField fields "note" decString
    let author ← optField fields "author" decString
    pure { note := note, author := author }
  | _ => .error (.typeMismatch "object")

/-- Encode a `GhostPoint` struct. -/
def encGhostPoint (g : GhostPoint) : Json :=
  .obj [("skater", encOpt Json.str g.skater),
        ("ghost_point", encGhostPointType g.ghost_point)]

/-- Decode a `GhostPoint` struct. -/
def decGhostPoint (j : Json) : Except DecodeError GhostPoint :=
  match j with
  | .obj fields => do
    let skater ← optField fields "skater" decString
    let gp ← reqField fields "ghost_point" decGhostPointType
    pure { skater := skater, ghost_point := gp }
  | _ => .error (.typeMismatch "object")

/-- Encode an `Involved` struct (defaulted `notes` always emitted). -/
def encInvolved (i : Involved) : Json :=
  .obj [("skater", .str i.skater), ("notes", encArr encNote i.notes)]

/-- Decode an `Involved` struct: `skater` required,
    `notes` has `#[serde(default)]`. -/
def decInvolvedS (j : Json) : Except DecodeError Involved :=
  match j with
  | .obj fields => do
    let skater ← reqField fields "skater" decString
    let notes ← defaultField fields "notes" (decArr decNoteS) []
    pure { skater := skater, notes := notes }
  | _ => .error (.typeMismatch "object")

/-- Encode a `Substitute` struct. -/
def encSubstitute (s : Substitute) : Json :=
  .obj [("skater", .str s.skater), ("reason", .str s.reason)]

/-- Decode a `Substitute` struct: both fields required. -/
def decSubstitute (j : Json) : Except DecodeError Substitute :=
  match j with
  | .obj fields => do
    let skater ← reqField fields "skater" decString
    let reason ← reqField fields "reason" decString
    pure { skater := skater, reason := reason }
  | _ => .error (.typeMismatch "object")

/-- Encode a `Timestamp`: externally tagged, kebab-case variant keys. -/
def encodeTimestamp : Timestamp → Json
  | .Wall s => .obj [("wall", .str s)]
  | .Epoch n => .obj [("epoch", .num n)]
  | .Period s => .obj [("period", .str s)]
  | .Seconds n => .obj [("seconds", .num n)]
  | .Jam n => .obj [("jam", .num n)]

/-- The five external variant keys of `Timestamp`. -/
def timestampKeys : List String :=
  ["wall", "epoch", "period", "seconds", "jam"]

/-- Decode a `Timestamp`: a single-entry object whose key names the
    variant; wall and period carry strings, the rest numbers. -/
def decodeTimestamp (j : Json) : Except DecodeError Timestamp :=
  match j with
  | .obj [(k, v)] =>
    match k with
    | "wall" => (decString v).map .Wall
    | "epoch" => (decNumber v).map .Epoch
    | "period" => (decString v).map .Period
    | "seconds" => (decNumber v).map .Seconds
    | "jam" => (decNumber v).map .Jam
    | _ => .error (.unknownVariant k)
  | _ => .error (.typeMismatch "Timestamp")

/-! JamEvent codec: internally tagged with `tag = "event"`. Encoding
    emits the tag first, then the variant's fields in declaration order,
    with None as null (the source sets no skip attributes). Decoding
    reads the `event` tag, dispatches to the variant's struct decoder,
    and ignores unknown fields inside a variant. -/

/-- Decode the `line up` variant's fields. -/
def decLineup (fields : List (String × Json)) : Except DecodeError JamEvent := do
  let skater ← reqField fields "skater" decString
  let sib ← reqField fields "start_in_box" decBool
  let pos ← reqField fields "position" decPosition
  pure (.Lineup skater sib pos)

/-- Decode the `pack lap` variant's fields. -/
def decPackLap (fields : List (String × Json)) : Except DecodeError JamEvent := do
  let ts ← optField fields "timestamp" decodeTimestamp
  let count ← optField fields "count" (decFin 256)
  pure (.PackLap ts count)

/-- Decode the `penalty` variant's fields. -/
def decPenalty (fields : List (String × Json)) : Except DecodeError JamEvent := do
  let ts ← optField fields "timestamp" decodeTimestamp
  let skater ← reqField fields "skater" decString
  let penalty ← reqField fields "penalty" decString
  let severity ← optField fields "severity" decSeverity
  let rescinded ← optField fields "rescinded" decBool
  let involved ← optField fields "involved" (decArr decInvolvedS)
  let cue ← optField fields "cue" decString
  pure (.Penalty ts skater penalty severity rescinded involved cue)

/-- Decode the `pass` variant's fields. -/
def decPass (fields : List (String × Json)) : Except DecodeError JamEvent := do
  let ts ← optField fields "timestamp" decodeTimestamp
  let completed ← optField fields "completed" decBool
  let number ← reqField fields "number" (decFin 256)
  let points ← optField fields "points" (decFin 256)
  let skater ← optField fields "skater" decString
  let gp ← optField fields "ghost_points" (decArr decGhostPoint)
  pure (.Pass ts completed number points skater gp)

/-- Decode the `star pass` variant's fields. -/
def decStarPass (fields : List (String × Json)) : Except DecodeError JamEvent := do
  let ts ← optField fields "timestamp" decodeTimestamp
  let skater ← optField fields "skater" decString
  let team ← optField fields "team" decString
  let completed ← optField fields "completed" decBool
  let failure ← optField fields "failure" decString
  pure (.StarPass ts skater team completed failure)

/-- Decode the `lead` variant's fields. -/
def decLead (fields : List (String × Json)) : Except DecodeError JamEvent := do
  let ts ← optField fields "timestamp" decodeTimestamp
  let skater ← reqField fields "skater" decString
  pure (.Lead ts skater)

/-- Decode the `lost lead` variant's fields. -/
def decLostLead (fields : List (String × Json)) : Except DecodeError JamEvent := do
  let ts ← optField fields "timestamp" decodeTimestamp
  let skater ← reqField fields "skater" decString
  pure (.LostLead ts skater)

/-- Decode the `call` variant's fields. -/
def decCall (fields : List (String × Json)) : Except DecodeError JamEvent := do
  let ts ← optField fields "timestamp" decodeTimestamp
  let skater ← optField fields "skater" decString
  let team ← optField fields "team" decString
  let official ← optField fields "official" decString
  pure (.Call ts skater team official)

/-- Decode the `enter box` variant's fields. -/
def decEnterBox (fields : List (String × Json)) : Except DecodeError JamEvent := do
  let ts ← optField fields "timestamp" decodeTimestamp
  let skater ← reqField fields "skater" decString
  let duration ← optField fields "duration" decNumber
  let sub ← optField fields "substitute" decSubstitute
  let notes ← optField fields "notes" (decArr decNoteS)
  pure (.EnterBox ts skater duration sub notes)

/-- Decode the `exit box` variant's fields (kebab-case `no-skater`). -/
def decExitBox (fields : List (String × Json)) : Except DecodeError JamEvent := do
  let ts ← optField fields "timestamp" decodeTimestamp
  let skater ← reqField fields "skater" decString
  let duration ← optField fields "duration" decNumber
  let premature ← optField fields "premature" decPremature
  let ns ← optField fields "no-skater" decBool
  pure (.ExitBox ts skater duration premature ns)

/-- Decode the `injury` variant's fields. -/
def decInjury (fields : List (String × Json)) : Except DecodeError JamEvent := do
  let ts ← optField fields "timestamp" decodeTimestamp
  let skater ← reqField fields "skater" decString
  pure (.Injury ts skater)

/-- Decode the `note` variant's fields (`notes` is a required Note). -/
def decNoteEvent (fields : List (String × Json)) : Except DecodeError JamEvent := do
  let note ← reqField fields "note" decString
  let author ← optField fields "author" decString
  let date ← optField fields "date" decString
  let notes ← reqField fields "notes" decNoteS
  pure (.Note note author date notes)

/-- Decode the `leave track` variant's fields (kebab-case
    `opposing-pass`). -/
def decLeaveTrack (fields : List (String × Json)) : Except DecodeError JamEvent := do
  let ts ← optField fields "timestamp" decodeTimestamp
  let skater ← reqField fields "skater" decString
  let reason ← optField fields "reason" decLeaveReason
  let op ← reqField fields "opposing-pass" (decFin 256)
  pure (.LeaveTrack ts skater reason op)

/-- Decode the `return track` variant's fields (kebab-case
    `opposing-pass`). -/
def decReturnTrack (fields : List (String × Json)) : Except DecodeError JamEvent := do
  let ts ← optField fields "timestamp" decodeTimestamp
  let skater ← reqField fields "skater" decString
  let op ← reqField fields "opposing-pass" (decFin 256)
  pure (.ReturnTrack ts skater op)

/-- The 15 external tag strings of `JamEvent`. -/
def jamEventTags : List String :=
  ["line up", "pack lap", "penalty", "pass", "star pass", "lead",
   "lost lead", "call", "enter box", "exit box", "box time", "injury",
   "note", "leave track", "return track"]

/-- Dispatch on the `event` tag string; an unknown tag is a decode
    error, never silently ignored. -/
def dispatchJamEvent (tag : String) (fields : List (String × Json)) :
    Except DecodeError JamEvent :=
  match tag with
  | "line up" => decLineup fields
  | "pack lap" => decPackLap fields
  | "penalty" => decPenalty fields
  | "pass" => decPass fields
  | "star pass" => decStarPass fields
  | "lead" => decLead fields
  | "lost lead" => decLostLead fields
  | "call" => decCall fields
  | "enter box" => decEnterBox fields
  | "exit box" => decExitBox fields
  | "box time" => .ok .BoxTime
  | "injury" => decInjury fields
  | "note" => decNoteEvent fields
  | "leave track" => decLeaveTrack fields
  | "return track" => decReturnTrack fields
  | _ => .error (.unrecognizedEventKind tag)

/-- Decode a `JamEvent` from a JSON object: the internally tagged enum
    reads the `event` field (a string) and dispatches on it; the variant
    decoders run over the object's fields (the tag entry is simply never
    looked up by any variant, so it need not be removed). -/
def decodeJamEvent (j : Json) : Except DecodeError JamEvent :=
  match j with
  | .obj fields =>
    match lookupField fields "event" with
    | none => .error (.missingField "event")
    | some (.str tag) => dispatchJamEvent tag fields
    | some _ => .error (.typeMismatch "string")
  | _ => .error (.typeMismatch "object")

/-- Encode a `JamEvent`: tag entry first, then the variant's fields in
    declaration order; None fields are emitted as null. -/
def encodeJamEvent : JamEvent → Json
  | .Lineup skater sib pos =>
    .obj [("event", .str "line up"), ("skater", .str skater),
          ("start_in_box", .bool sib), ("position", encPosition pos)]
  | .PackLap ts count =>
    .obj [("event", .str "pack lap"),
          ("timestamp", encOpt encodeTimestamp ts),
          ("count", encOpt encFin count)]
  | .Penalty ts skater penalty severity rescinded involved cue =>
    .obj [("event", .str "penalty"),
          ("timestamp", encOpt encodeTimestamp ts),
          ("skater", .str skater), ("penalty", .str penalty),
          ("severity", encOpt encSeverity severity),
          ("rescinded", encOpt Json.bool rescinded),
          ("involved", encOpt (encArr encInvolved) involved),
          ("cue", encOpt Json.str cue)]
  | .Pass ts completed number points skater gp =>
    .obj [("event", .str "pass"),
          ("timestamp", encOpt encodeTimestamp ts),
          ("completed", encOpt Json.bool completed),
          ("number", encFin number),
          ("points", encOpt encFin points),
          ("skater", encOpt Json.str skater),
          ("ghost_points", encOpt (encArr encGhostPoint) gp)]
  | .StarPass ts skater team completed failure =>
    .obj [("event", .str "star pass"),
          ("timestamp", encOpt encodeTimestamp ts),
          ("skater", encOpt Json.str skater),
          ("team", encOpt Json.str team),
          ("completed", encOpt Json.bool completed),
          ("failure", encOpt Json.str failure)]
  | .Lead ts skater =>
    .obj [("event", .str "lead"),
          ("timestamp", encOpt encodeTimestamp ts),
          ("skater", .str skater)]
  | .LostLead ts skater =>
    .obj [("event", .str "lost lead"),
          ("timestamp", encOpt encodeTimestamp ts),
          ("skater", .str skater)]
  | .Call ts skater team official =>
    .obj [("event", .str "call"),
          ("timestamp", encOpt encodeTimestamp ts),
          ("skater", encOpt Json.str skater),
          ("team", encOpt Json.str team),
          ("official", encOpt Json.str official)]
  | .EnterBox ts skater duration sub notes =>
    .obj [("event", .str "enter box"),
          ("timestamp", encOpt encodeTimestamp ts),
          ("skater", .str skater),
          ("duration", encOpt Json.num duration),
          ("substitute", encOpt encSubstitute sub),
          ("notes", encOpt (encArr encNote) notes)]
  | .ExitBox ts skater duration premature ns =>
    .obj [("event", .str "exit box"),
          ("timestamp", encOpt encodeTimestamp ts),
          ("skater", .str skater),
          ("duration", encOpt Json.num duration),
          ("premature", encOpt encPremature premature),
          ("no-skater", encOpt Json.bool ns)]
  | .BoxTime =>
    .obj [("event", .str "box time")]
  | .Injury ts skater =>
    .obj [("event", .str "injury"),
          ("timestamp", encOpt encodeTimestamp ts),
          ("skater", .str skater)]
  | .Note note author date notes =>
    .obj [("event", .str "note"), ("note", .str note),
          ("author", encOpt Json.str author),
          ("date", encOpt Json.str date),
          ("notes", encNote notes)]
  | .LeaveTrack ts skater reason op =>
    .obj [("event", .str "leave track"),
          ("timestamp", encOpt encodeTimestamp ts),
          ("skater", .str skater),
          ("reason", encOpt encLeaveReason reason),
          ("opposing-pass", encFin op)]
  | .ReturnTrack ts skater op =>
    .obj [("event", .str "return track"),
          ("timestamp", encOpt encodeTimestamp ts),
          ("skater", .str skater),
          ("opposing-pass", encFin op)]

/-- Decode a `Jam` struct: `number`, `events`, `notes` required;
    `timestamp`, `duration` optional. -/
def decJamS (j : Json) : Except DecodeError Jam :=
  match j with
  | .obj fields => do
    let number ← reqField fields "number" (decFin 65536)
    let ts ← optField fields "timestamp" decodeTimestamp
    let duration ← optField fields "duration" (decFin 65536)
    let events ← reqField fields "events" (decArr decodeJamEvent)
    let notes ← reqField fields "notes" (decArr decNoteS)
    pure { number := number, timestamp := ts, duration := duration,
           events := events, notes := notes }
  | _ => .error (.typeMismatch "object")

/-- Decode a `Timeout` struct: `timeout` and `duration` required,
    `notes` defaulted, the rest optional. -/
def decTimeoutS (j : Json) : Except DecodeError Timeout :=
  match j with
  | .obj fields => do
    let timeout ← reqField fields "timeout" decTeamType
    let notes ← defaultField fields "notes" (decArr decNoteS) []
    let injury ← optField fields "injury" decString
    let duration ← reqField fields "duration" (decFin 4294967296)
    let ts ← optField fields "timestamp" decodeTimestamp
    let review ← optField fields "review" decString
    let resolution ← optField fields "resolution" decString
    let retained ← optField fields "retained" decBool
    pure { timeout := timeout, notes := notes, injury := injury,
           duration := duration, timestamp := ts, review := review,
           resolution := resolution, retained := retained }
  | _ => .error (.typeMismatch "object")

/-- Decode a `ClockEvent`: the untagged enum tries its variants in
    declaration order — Note, then Jam, then Timeout — and accepts the
    first structural match; if all three fail the decode fails with a
    single mismatch error naming the enum. -/
def decodeClockEvent (j : Json) : Except DecodeError ClockEvent :=
  match decNoteS j with
  | .ok n => .ok (.Note n)
  | .error _ =>
    match decJamS j with
    | .ok jm => .ok (.Jam jm)
    | .error _ =>
      match decTimeoutS j with
      | .ok t => .ok (.Timeout t)
      | .error _ => .error (.untaggedMismatch "ClockEvent")

/-! Data model from src/teamdata.rs. -/

/-- A team's level (src/teamdata.rs `TeamLevel`); only `AllStar` is
    renamed, to "All Star". -/
inductive TeamLevel where
  | AllStar
  | B
  | C
  | Rec
  | Officials
  | Home
  | Adhoc
deriving DecidableEq

/-- A certifying association (src/teamdata.rs `Association`), no rename. -/
inductive Association where
  | WFTDA
  | MRDA
  | JRDA
  | Other
deriving DecidableEq

/-- An officiating certification (src/teamdata.rs `Certification`);
    `level` is u8. -/
structure Certification where
  association : Association
  certification : String
  level : Option (Fin 256)
  endorsement : Option String
deriving DecidableEq

/-- A skater or official (src/teamdata.rs `Person`); `roles` carries
    `#[serde(default)]`. -/
structure Person where
  name : String
  number : Option String
  league : Option String
  certifications : Option (List Certification)
  legal : Option String
  roles : List String
  skated : Option Bool
  uuid : Option (List String)
  insurance : Option (List String)
deriving DecidableEq

/-- A team or league logo (src/teamdata.rs `Logo`): thirteen optional
    URL fields. -/
structure Logo where
  url : Option String
  small : Option String
  medium : Option String
  large : Option String
  small_dark : Option String
  medium_dark : Option String
  large_dark : Option String
  small_light : Option String
  medium_light : Option String
  large_light : Option String
  small_greyscale : Option String
  medium_greyscale : Option String
  large_greyscale : Option String
deriving DecidableEq

/-- A game venue (src/teamdata.rs `Venue`); `notes`, `uuid` and `logo`
    carry `#[serde(default)]`. -/
structure Venue where
  name : String
  city : String
  state : String
  url : Option String
  country : Option String
  email : Option String
  fax : Option String
  otheraddr : Option String
  phone : Option String
  pob : Option String
  postcode : Option String
  street : Option String
  notes : List Note
  uuid : List String
  logo : List Logo
deriving DecidableEq

/-- A team (src/teamdata.rs `Team`). -/
structure Team where
  name : String
  league : Option String
  abbreviation : Option String
  persons : List Person
  level : Option TeamLevel
  date : Option String
  color : Option String
  logo : Option Logo
deriving DecidableEq

/-- A league (src/teamdata.rs `League`). -/
structure League where
  name : String
  abbreviation : Option String
  uuid : Option (List String)
  venue : Option Venue
  teams : List Team
  logo : Option Logo
deriving DecidableEq

/-! Decoders for the teamdata types (all open schemas: unknown fields
    are ignored). -/

/-- Decode a `TeamLevel`. -/
def decTeamLevel : Json → Except DecodeError TeamLevel
  | .str "All Star" => .ok .AllStar
  | .str "B" => .ok .B
  | .str "C" => .ok .C
  | .str "Rec" => .ok .Rec
  | .str "Officials" => .ok .Officials
  | .str "Home" => .ok .Home
  | .str "Adhoc" => .ok .Adhoc
  | .str s => .error (.unknownVariant s)
  | _ => .error (.typeMismatch "string")

/-- Decode an `Association`. -/
def decAssociation : Json → Except DecodeError Association
  | .str "WFTDA" => .ok .WFTDA
  | .str "MRDA" => .ok .MRDA
  | .str "JRDA" => .ok .JRDA
  | .str "Other" => .ok .Other
  | .str s => .error (.unknownVariant s)
  | _ => .error (.typeMismatch "string")

/-- Decode a `Certification` struct. -/
def decCertification (j : Json) : Except DecodeError Certification :=
  match j with
  | .obj fields => do
    let association ← reqField fields "association" decAssociation
    let certification ← reqField fields "certification" decString
    let level ← optField fields "level" (decFin 256)
    let endorsement ← optField fields "endorsement" decString
    pure { association := association, certification := certification,
           level := level, endorsement := endorsement }
  | _ => .error (.typeMismatch "object")

/-- Decode a `Person` struct: `name` required, `roles` defaulted,
    the rest optional. -/
def decPerson (j : Json) : Except DecodeError Person :=
  match j with
  | .obj fields => do
    let name ← reqField fields "name" decString
    let number ← optField fields "number" decString
    let league ← optField fields "league" decString
    let certs ← optField fields "certifications" (decArr decCertification)
    let legal ← optField fields "legal" decString
    let roles ← defaultField fields "roles" (decArr decString) []
    let skated ← optField fields "skated" decBool
    let uuid ← optField fields "uuid" (decArr decString)
    let insurance ← optField fields "insurance" (decArr decString)
    pure { name := name, number := number, league := league,
           certifications := certs, legal := legal, roles := roles,
           skated := skated, uuid := uuid, insurance := insurance }
  | _ => .error (.typeMismatch "object")

/-- Decode a `Logo` struct: every field optional. -/
def decLogo (j : Json) : Except DecodeError Logo :=
  match j with
  | .obj fields => do
    let url ← optField fields "url" decString
    let small ← optField fields "small" decString
    let medium ← optField fields "medium" decString
    let large ← optField fields "large" decString
    let small_dark ← optField fields "small_dark" decString
    let medium_dark ← optField fields "medium_dark" decString
    let large_dark ← optField fields "large_dark" decString
    let small_light ← optField fields "small_light" decString
    let medium_light ← optField fields "medium_light" decString
    let large_light ← optField fields "large_light" decString
    let small_greyscale ← optField fields "small_greyscale" decString
    let medium_greyscale ← optField fields "medium_greyscale" decString
    let large_greyscale ← optField fields "large_greyscale" decString
    pure { url := url, small := small, medium := medium, large := large,
           small_dark := small_dark, medium_dark := medium_dark,
           large_dark := large_dark, small_light := small_light,
           medium_light := medium_light, large_light := large_light,
           small_greyscale := small_greyscale,
           medium_greyscale := medium_greyscale,
           large_greyscale := large_greyscale }
  | _ => .error (.typeMismatch "object")

/-- Decode a `Venue` struct: `name`, `city`, `state` required;
    `notes`, `uuid`, `logo` defaulted; the rest optional. -/
def decVenue (j : Json) : Except DecodeError Venue :=
  match j with
  | .obj fields => do
    let name ← reqField fields "name" decString
    let city ← reqField fields "city" decString
    let state ← reqField fields "state" decString
    let url ← optField fields "url" decString
    let country ← optField fields "country" decString
    let email ← optField fields "email" decString
    let fax ← optField fields "fax" decString
    let otheraddr ← optField fields "otheraddr" decString
    let phone ← optField fields "phone" decString
    let pob ← optField fields "pob" decString
    let postcode ← optField fields "postcode" decString
    let street ← optField fields "street" decString
    let notes ← defaultField fields "notes" (decArr decNoteS) []
    let uuid ← defaultField fields "uuid" (decArr decString) []
    let logo ← defaultField fields "logo" (decArr decLogo) []
    pure { name := name, city := city, state := state, url := url,
           country := country, email := email, fax := fax,
           otheraddr := otheraddr, phone := phone, pob := pob,
           postcode := postcode, street := street, notes := notes,
           uuid := uuid, logo := logo }
  | _ => .error (.typeMismatch "object")

/-- Decode a `Team` struct: `name` and `persons` required,
    the rest optional. -/
def decTeam (j : Json) : Except DecodeError Team :=
  match j with
  | .obj fields => do
    let name ← reqField fields "name" decString
    let league ← optField fields "league" decString
    let abbreviation ← optField fields "abbreviation" decString
    let persons ← reqField fields "persons" (decArr decPerson)
    let level ← optField fields "level" decTeamLevel
    let date ← optField fields "date" decString
    let color ← optField fields "color" decString
    let logo ← optField fields "logo" decLogo
    pure { name := name, league := league, abbreviation := abbreviation,
           persons := persons, level := level, date := date,
           color := color, logo := logo }
  | _ => .error (.typeMismatch "object")

/-- Decode a `League` struct: `name` and `teams` required,
    the rest optional. -/
def decLeague (j : Json) : Except DecodeError League :=
  match j with
  | .obj fields => do
    let name ← reqField fields "name" decString
    let abbreviation ← optField fields "abbreviation" decString
    let uuid ← optField fields "uuid" (decArr decString)
    let venue ← optField fields "venue" decVenue
    let teams ← reqField fields "teams" (decArr decTeam)
    let logo ← optField fields "logo" decLogo
    pure { name := name, abbreviation := abbreviation, uuid := uuid,
           venue := venue, teams := teams, logo := logo }
  | _ => .error (.typeMismatch "object")

/-! Root document types from src/lib.rs. -/

/-- Version of DerbyJSON supported (src/lib.rs `VERSION`). -/
def VERSION : String := "0.2"

/-- The kind of a root document (src/lib.rs `ObjectType`), kebab-case
    externally. -/
inductive ObjectType where
  | Game
  | Rosters
  | Stats
  | League
deriving DecidableEq

/-- Decode an `ObjectType`. -/
def decObjectType : Json → Except DecodeError ObjectType
  | .str "game" => .ok .Game
  | .str "rosters" => .ok .Rosters
  | .str "stats" => .ok .Stats
  | .str "league" => .ok .League
  | .str s => .error (.unknownVariant s)
  | _ => .error (.typeMismatch "string")

/-- The derived Debug rendering of an `ObjectType`, as `format!` uses
    in `load_roster`'s `UnexpectedType` error. -/
def ObjectType.debugStr : ObjectType → String
  | .Game => "Game"
  | .Rosters => "Rosters"
  | .Stats => "Stats"
  | .League => "League"

/-- An expulsion from a game (src/lib.rs `Expulsion`). -/
structure Expulsion where
  skater : String
  suspension : Bool
  notes : List Note
deriving DecidableEq

/-- The ruleset used for a game (src/lib.rs `Ruleset`); u8 counters. -/
structure Ruleset where
  version : String
  period_count : Fin 256
  period : String
  jam : String
  lineup : String
  timeout : String
  timeout_count : Fin 256
  official_review_count : Fin 256
  official_review_retained : Bool
  official_review_maximum : Fin 256
  penalty : String
  minors : Bool
  minors_per_major : Fin 256
  foulout : Fin 256
deriving DecidableEq

/-- A game clock definition (src/lib.rs `Timer`); `duration` is u16. -/
structure Timer where
  duration : Fin 65536
  counts_down : Bool
  running : Bool
deriving DecidableEq

/-- The set of game clocks (src/lib.rs `Timers`). -/
structure Timers where
  countdown : Option Timer
  period : Timer
  halftime : Option Timer
  jam : Option Timer
deriving DecidableEq

/-- The root DerbyJSON object (src/lib.rs `DerbyJSON`); maps are
    association lists and raw values are `Json`. -/
structure DerbyJSON where
  version : Option String
  metadata : List (String × Json)
  objecttype : ObjectType
  teams : List (String × Team)
  periods : List Period
  ruleset : Option Ruleset
  venue : Option Venue
  uuid : List String
  notes : List Note
  date : String
  time : String
  end_time : String
  leagues : Option (List League)
  timers : Timers
  tournament : Option String
  host_league : Option String
  expulsions : List Expulsion
  suspensions : List String
  signatures : List Json
  sanctioned : Bool
  association : Option Association

/-- Create an empty DerbyJSON structure corresponding to a game
    (src/lib.rs `DerbyJSON::new_game`): default/empty values for almost
    everything and two default periods; the period timer runs 30*60
    seconds, counting down, not running. -/
def DerbyJSON.new_game (teams : List (String × Team)) : DerbyJSON :=
  let timers : Timers :=
    { countdown := none
      halftime := none
      jam := none
      period :=
        { duration := ⟨30 * 60, by decide⟩
          counts_down := true
          running := false } }
  { version := some VERSION
    objecttype := .Game
    metadata := []
    ruleset := none
    venue := none
    uuid := []
    notes := []
    leagues := none
    tournament := none
    host_league := none
    expulsions := []
    suspensions := []
    signatures := []
    association := none
    date := ""
    time := ""
    end_time := ""
    sanctioned := false
    teams := teams
    periods := [defaultPeriod, defaultPeriod]
    timers := timers }

/-- The roster subset of a document (src/lib.rs `Rosters`); declared
    with `deny_unknown_fields`, so its schema is closed. -/
structure Rosters where
  version : Option String
  metadata : Option (List (String × Json))
  objecttype : ObjectType
  teams : List (String × Team)
  uuid : List String
  notes : List Note
  leagues : List League

/-- The closed set of external field names accepted by `Rosters`. -/
def rosterFieldNames : List String :=
  ["version", "metadata", "type", "teams", "uuid", "notes", "leagues"]

/-- Decode a `Rosters` document: `deny_unknown_fields` rejects the
    first field outside the declared set; `type` and `teams` required;
    `version` and `metadata` optional; `uuid`, `notes`, `leagues`
    defaulted to the empty list when absent. -/
def decodeRosters (j : Json) : Except DecodeError Rosters :=
  match j with
  | .obj fields =>
    match fields.find? (fun f => !(rosterFieldNames.contains f.1)) with
    | some f => .error (.unexpectedField f.1)
    | none => do
      let version ← optField fields "version" decString
      let metadata ← optField fields "metadata" decJsonMap
      let objecttype ← reqField fields "type" decObjectType
      let teams ← reqField fields "teams" (decObjMap decTeam)
      let uuid ← defaultField fields "uuid" (decArr decString) []
      let notes ← defaultField fields "notes" (decArr decNoteS) []
      let leagues ← defaultField fields "leagues" (decArr decLeague) []
      pure { version := version, metadata := metadata,
             objecttype := objecttype, teams := teams, uuid := uuid,
             notes := notes, leagues := leagues }
  | _ => .error (.typeMismatch "object")

/-- The loader's error type (src/lib.rs `Error`). -/
inductive Error where
  | Serde (e : DecodeError)
  | UnexpectedType (actual : String)
  | UnexpectedVersion (actual : String)
deriving DecidableEq

/-- Load a roster from the given (already JSON-decoded) input
    (src/lib.rs `load_roster`): decode as `Rosters`, then check that the
    object type is `Rosters` and, when a version is present, that it
    equals `VERSION`. -/
def load_roster (j : Json) : Except Error Rosters :=
  match decodeRosters j with
  | .error e => .error (.Serde e)
  | .ok obj =>
    if obj.objecttype ≠ ObjectType.Rosters then
      .error (.UnexpectedType obj.objecttype.debugStr)
    else
      match obj.version with
      | some version =>
        if version ≠ VERSION then .error (.UnexpectedVersion version)
        else .ok obj
      | none => .ok obj

/-! Concrete documents used to instantiate the theorems below. -/

/-- Fields of the spec's concrete roster document
    `\x7b"type":"rosters","teams":\x7b"Home":...\x7d\x7d`. -/
def rosterDocFields : List (String × Json) :=
  [("type", .str "rosters"),
   ("teams", .obj [("Home", .obj [("name", .str "Home"),
                                  ("persons", .arr [])])])]

/-- The spec's concrete roster document as a JSON value. -/
def rosterDoc : Json := .obj rosterDocFields

/-- The team the concrete roster document decodes to. -/
def homeTeam : Team :=
  { name := "Home", league := none, abbreviation := none, persons := [],
    level := none, date := none, color := none, logo := none }

/-- The `Rosters` value the concrete roster document decodes to. -/
def homeRosters : Rosters :=
  { version := none, metadata := none, objecttype := .Rosters,
    teams := [("Home", homeTeam)], uuid := [], notes := [], leagues := [] }

/-- A roster document carrying the supported version string. -/
def versionedRosterDoc : Json :=
  .obj [("type", .str "rosters"), ("version", .str "0.2"),
        ("teams", .obj [])]

/-- The `Rosters` value `versionedRosterDoc` decodes to. -/
def versionedRosters : Rosters :=
  { version := some "0.2", metadata := none, objecttype := .Rosters,
    teams := [], uuid := [], notes := [], leagues := [] }

/-- A game-typed document that still decodes under the roster schema. -/
def gameDoc : Json :=
  .obj [("type", .str "game"), ("teams", .obj [])]

/-- The `Rosters` value `gameDoc` decodes to (objecttype `Game`). -/
def gameRosters : Rosters :=
  { version := none, metadata := none, objecttype := .Game,
    teams := [], uuid := [], notes := [], leagues := [] }

/-! Helper lemmas about the Except monad and the decode combinators. -/

/-- Binding a successful Except runs the continuation. -/
theorem exceptBindOk (a : α) (f : α → Except ε β) :
    (Except.ok a : Except ε α) >>= f = f a := rfl

/-- Binding a failed Except propagates the error. -/
theorem exceptBindErr (e : ε) (f : α → Except ε β) :
    (Except.error e : Except ε α) >>= f = .error e := rfl

/-- Pure in the Except monad is `ok`. -/
theorem exceptPure (a : α) : (pure a : Except ε α) = .ok a := rfl

/-- A bind yields `ok` exactly when both stages do. -/
theorem bind_eq_ok {m : Except ε α} {f : α → Except ε β} {b : β} :
    m >>= f = .ok b ↔ ∃ a, m = .ok a ∧ f a = .ok b := by
  cases m with
  | error e =>
    constructor
    · intro h; exact absurd h (by simp [exceptBindErr])
    · rintro ⟨a, ha, _⟩; exact absurd ha (by simp)
  | ok a => simp [exceptBindOk]

/-- When nothing in the first list matches, `find?` over an append
    searches the second list. -/
theorem find?_append_none {p : α → Bool} {l₁ : List α} (l₂ : List α)
    (h : l₁.find? p = none) : (l₁ ++ l₂).find? p = l₂.find? p := by
  induction l₁ with
  | nil => rfl
  | cons x xs ih =>
    rw [List.find?_eq_none] at h
    have hx : ¬ p x = true := h x (by simp)
    have hxs : xs.find? p = none := by
      rw [List.find?_eq_none]
      intro y hy
      exact h y (by simp [hy])
    rw [List.cons_append, List.find?_cons_of_neg _ hx, ih hxs]

/-- Decoding the encoding of a machine integer gives it back. -/
theorem rtFin (n : Nat) (x : Fin n) : decFin n (encFin x) = .ok x := by
  have h1 : (0:Int) ≤ (x.val : Int) ∧ ((x.val : Int)).toNat < n := by
    refine ⟨Int.natCast_nonneg x.val, ?_⟩
    simp
  simp only [decFin, encFin]
  rw [dif_pos h1]
  simp

/-- Mapping over a successful Except applies the function. -/
theorem exceptMapOk (f : α → β) (a : α) :
    Except.map f (Except.ok a : Except ε α) = .ok (f a) := rfl

/-- Option-field roundtrip for string payloads. -/
theorem optString (o : Option String) :
    decOptVal decString (encOpt Json.str o) = .ok o := by
  cases o <;> rfl

/-- Option-field roundtrip for boolean payloads. -/
theorem optBool (o : Option Bool) :
    decOptVal decBool (encOpt Json.bool o) = .ok o := by
  cases o <;> rfl

/-- Option-field roundtrip for number payloads. -/
theorem optNum (o : Option Int) :
    decOptVal decNumber (encOpt Json.num o) = .ok o := by
  cases o <;> rfl

/-- Option-field roundtrip for machine-integer payloads. -/
theorem optFin (n : Nat) (o : Option (Fin n)) :
    decOptVal (decFin n) (encOpt encFin o) = .ok o := by
  cases o with
  | none => rfl
  | some x =>
    have h : decFin n (Json.num (x.val : Int)) = .ok x := rtFin n x
    simp [encOpt, encFin, decOptVal, h, exceptMapOk]

/-- Option-field roundtrip for Timestamp payloads. -/
theorem optTimestamp (o : Option Timestamp) :
    decOptVal decodeTimestamp (encOpt encodeTimestamp o) = .ok o := by
  cases o with
  | none => rfl
  | some t => cases t <;> rfl

/-- Option-field roundtrip for PenaltySeverity payloads. -/
theorem optSeverity (o : Option PenaltySeverity) :
    decOptVal decSeverity (encOpt encSeverity o) = .ok o := by
  cases o with
  | none => rfl
  | some v => cases v <;> rfl

/-- Option-field roundtrip for PrematureExitReason payloads. -/
theorem optPremature (o : Option PrematureExitReason) :
    decOptVal decPremature (encOpt encPremature o) = .ok o := by
  cases o with
  | none => rfl
  | some v => cases v <;> rfl

/-- Option-field roundtrip for LeaveTrackReason payloads. -/
theorem optLeaveReason (o : Option LeaveTrackReason) :
    decOptVal decLeaveReason (encOpt encLeaveReason o) = .ok o := by
  cases o with
  | none => rfl
  | some v => cases v <;> rfl

/-- Roundtrip for the `Note` struct codec. -/
theorem rtNote (n : Note) : decNoteS (encNote n) = .ok n := by
  cases n with
  | mk note author => cases author <;> rfl

/-- Roundtrip for the `Substitute` struct codec. -/
theorem rtSubstitute (s : Substitute) : decSubstitute (encSubstitute s) = .ok s := rfl

/-- Option-field roundtrip for Substitute payloads. -/
theorem optSubstitute (o : Option Substitute) :
    decOptVal decSubstitute (encOpt encSubstitute o) = .ok o := by
  cases o <;> rfl

/-- Roundtrip for the `GhostPoint` struct codec. -/
theorem rtGhostPoint (g : GhostPoint) : decGhostPoint (encGhostPoint g) = .ok g := by
  cases g with
  | mk sk gp => cases sk <;> cases gp <;> rfl

/-- Pointwise roundtrips lift to lists. -/
theorem decListMap {dec : Json → Except DecodeError α} {enc : α → Json}
    (h : ∀ x, dec (enc x) = .ok x) (l : List α) :
    decList dec (l.map enc) = .ok l := by
  induction l with
  | nil => rfl
  | cons x xs ih => simp [decList, h, ih, exceptBindOk, exceptPure]

/-- Roundtrip for the `Involved` struct codec. -/
theorem rtInvolved (i : Involved) : decInvolvedS (encInvolved i) = .ok i := by
  cases i with
  | mk sk ns =>
    simp [decInvolvedS, encInvolved, reqField, defaultField, lookupField,
          decString, decArr, encArr, decListMap rtNote, exceptBindOk, exceptPure]

/-- Option-field roundtrip for lists of `Involved`. -/
theorem optInvolvedList (o : Option (List Involved)) :
    decOptVal (decArr decInvolvedS) (encOpt (encArr encInvolved) o) = .ok o := by
  cases o with
  | none => rfl
  | some l =>
    simp [encOpt, encArr, decOptVal, decArr, decListMap rtInvolved, exceptMapOk]

/-- Option-field roundtrip for lists of `Note`. -/
theorem optNoteList (o : Option (List Note)) :
    decOptVal (decArr decNoteS) (encOpt (encArr encNote) o) = .ok o := by
  cases o with
  | none => rfl
  | some l =>
    simp [encOpt, encArr, decOptVal, decArr, decListMap rtNote, exceptMapOk]

/-- Option-field roundtrip for lists of `GhostPoint`. -/
theorem optGhostPointList (o : Option (List GhostPoint)) :
    decOptVal (decArr decGhostPoint) (encOpt (encArr encGhostPoint) o) = .ok o := by
  cases o with
  | none => rfl
  | some l =>
    simp [encOpt, encArr, decOptVal, decArr, decListMap rtGhostPoint, exceptMapOk]

/-- Roundtrip for the `line up` variant. -/
theorem rtLineup (sk : String) (sib : Bool) (pos : Position) :
    decodeJamEvent (encodeJamEvent (.Lineup sk sib pos)) =
      .ok (.Lineup sk sib pos) := by
  cases pos <;> rfl

/-- Roundtrip for the `pack lap` variant. -/
theorem rtPackLap (ts : Option Timestamp) (c : Option (Fin 256)) :
    decodeJamEvent (encodeJamEvent (.PackLap ts c)) = .ok (.PackLap ts c) := by
  simp [encodeJamEvent, decodeJamEvent, lookupField, dispatchJamEvent,
        decPackLap, optField, optTimestamp, optFin, exceptBindOk, exceptPure]

/-- Roundtrip for the `penalty` variant. -/
theorem rtPenalty (ts : Option Timestamp) (sk p : String)
    (sv : Option PenaltySeverity) (rs : Option Bool)
    (iv : Option (List Involved)) (cue : Option String) :
    decodeJamEvent (encodeJamEvent (.Penalty ts sk p sv rs iv cue)) =
      .ok (.Penalty ts sk p sv rs iv cue) := by
  simp [encodeJamEvent, decodeJamEvent, lookupField, dispatchJamEvent,
        decPenalty, optField, reqField, decString, optTimestamp, optSeverity,
        optBool, optInvolvedList, optString, exceptBindOk, exceptPure]

/-- Roundtrip for the `pass` variant. -/
theorem rtPass (ts : Option Timestamp) (cp : Option Bool) (num : Fin 256)
    (pts : Option (Fin 256)) (sk : Option String)
    (gp : Option (List GhostPoint)) :
    decodeJamEvent (encodeJamEvent (.Pass ts cp num pts sk gp)) =
      .ok (.Pass ts cp num pts sk gp) := by
  simp [encodeJamEvent, decodeJamEvent, lookupField, dispatchJamEvent,
        decPass, optField, reqField, rtFin, optTimestamp, optBool, optFin,
        optString, optGhostPointList, exceptBindOk, exceptPure]

/-- Roundtrip for the `star pass` variant. -/
theorem rtStarPass (ts : Option Timestamp) (sk tm : Option String)
    (cp : Option Bool) (fl : Option String) :
    decodeJamEvent (encodeJamEvent (.StarPass ts sk tm cp fl)) =
      .ok (.StarPass ts sk tm cp fl) := by
  simp [encodeJamEvent, decodeJamEvent, lookupField, dispatchJamEvent,
        decStarPass, optField, optTimestamp, optString, optBool,
        exceptBindOk, exceptPure]

/-- Roundtrip for the `lead` variant. -/
theorem rtLead (ts : Option Timestamp) (sk : String) :
    decodeJamEvent (encodeJamEvent (.Lead ts sk)) = .ok (.Lead ts sk) := by
  simp [encodeJamEvent, decodeJamEvent, lookupField, dispatchJamEvent,
        decLead, optField, reqField, decString, optTimestamp,
        exceptBindOk, exceptPure]

/-- Roundtrip for the `lost lead` variant. -/
theorem rtLostLead (ts : Option Timestamp) (sk : String) :
    decodeJamEvent (encodeJamEvent (.LostLead ts sk)) = .ok (.LostLead ts sk) := by
  simp [encodeJamEvent, decodeJamEvent, lookupField, dispatchJamEvent,
        decLostLead, optField, reqField, decString, optTimestamp,
        exceptBindOk, exceptPure]

/-- Roundtrip for the `call` variant. -/
theorem rtCall (ts : Option Timestamp) (sk tm ofc : Option String) :
    decodeJamEvent (encodeJamEvent (.Call ts sk tm ofc)) =
      .ok (.Call ts sk tm ofc) := by
  simp [encodeJamEvent, decodeJamEvent, lookupField, dispatchJamEvent,
        decCall, optField, optTimestamp, optString, exceptBindOk, exceptPure]

/-- Roundtrip for the `enter box` variant. -/
theorem rtEnterBox (ts : Option Timestamp) (sk : String) (dur : Option Int)
    (sub : Option Substitute) (ns : Option (List Note)) :
    decodeJamEvent (encodeJamEvent (.EnterBox ts sk dur sub ns)) =
      .ok (.EnterBox ts sk dur sub ns) := by
  simp [encodeJamEvent, decodeJamEvent, lookupField, dispatchJamEvent,
        decEnterBox, optField, reqField, decString, optTimestamp, optNum,
        optSubstitute, optNoteList, exceptBindOk, exceptPure]

/-- Roundtrip for the `exit box` variant. -/
theorem rtExitBox (ts : Option Timestamp) (sk : String) (dur : Option Int)
    (pm : Option PrematureExitReason) (nsk : Option Bool) :
    decodeJamEvent (encodeJamEvent (.ExitBox ts sk dur pm nsk)) =
      .ok (.ExitBox ts sk dur pm nsk) := by
  simp [encodeJamEvent, decodeJamEvent, lookupField, dispatchJamEvent,
        decExitBox, optField, reqField, decString, optTimestamp, optNum,
        optPremature, optBool, exceptBindOk, exceptPure]

/-- Roundtrip for the `injury` variant. -/
theorem rtInjury (ts : Option Timestamp) (sk : String) :
    decodeJamEvent (encodeJamEvent (.Injury ts sk)) = .ok (.Injury ts sk) := by
  simp [encodeJamEvent, decodeJamEvent, lookupField, dispatchJamEvent,
        decInjury, optField, reqField, decString, optTimestamp,
        exceptBindOk, exceptPure]

/-- Roundtrip for the `note` variant. -/
theorem rtNoteEvent (note : String) (author date : Option String) (ns : Note) :
    decodeJamEvent (encodeJamEvent (.Note note author date ns)) =
      .ok (.Note note author date ns) := by
  simp [encodeJamEvent, decodeJamEvent, lookupField, dispatchJamEvent,
        decNoteEvent, optField, reqField, decString, optString, rtNote,
        exceptBindOk, exceptPure]

/-- Roundtrip for the `leave track` variant. -/
theorem rtLeaveTrack (ts : Option Timestamp) (sk : String)
    (rs : Option LeaveTrackReason) (op : Fin 256) :
    decodeJamEvent (encodeJamEvent (.LeaveTrack ts sk rs op)) =
      .ok (.LeaveTrack ts sk rs op) := by
  simp [encodeJamEvent, decodeJamEvent, lookupField, dispatchJamEvent,
        decLeaveTrack, optField, reqField, decString, optTimestamp,
        optLeaveReason, rtFin, exceptBindOk, exceptPure]

/-- Roundtrip for the `return track` variant. -/
theorem rtReturnTrack (ts : Option Timestamp) (sk : String) (op : Fin 256) :
    decodeJamEvent (encodeJamEvent (.ReturnTrack ts sk op)) =
      .ok (.ReturnTrack ts sk op) := by
  simp [encodeJamEvent, decodeJamEvent, lookupField, dispatchJamEvent,
        decReturnTrack, optField, reqField, decString, optTimestamp, rtFin,
        exceptBindOk, exceptPure]

/-! Claim theorems. -/

/-- C1: for every input that decodes to a `Rosters` value, `load_roster`
    fails with `UnexpectedType` exactly when the decoded objecttype is not
    `Rosters`; otherwise a present version differing from "0.2" fails with
    `UnexpectedVersion`, and a rosters-typed document with version "0.2"
    or no version succeeds with the decoded value. -/
theorem load_roster_gate (j : Json) (r : Rosters)
    (hdec : decodeRosters j = .ok r) :
    (r.objecttype ≠ ObjectType.Rosters →
      load_roster j = .error (.UnexpectedType r.objecttype.debugStr)) ∧
    (∀ s, load_roster j = .error (.UnexpectedType s) →
      r.objecttype ≠ ObjectType.Rosters) ∧
    (∀ v, r.objecttype = ObjectType.Rosters → r.version = some v →
      v ≠ VERSION → load_roster j = .error (.UnexpectedVersion v)) ∧
    (r.objecttype = ObjectType.Rosters →
      (r.version = none ∨ r.version = some VERSION) →
      load_roster j = .ok r) := by
  refine ⟨?_, ?_, ?_, ?_⟩
  · intro h
    simp [load_roster, hdec, h]
  · intro s hl ht
    cases hv : r.version with
    | none => simp [load_roster, hdec, ht, hv] at hl
    | some v =>
      by_cases hvv : v = VERSION <;>
        simp [load_roster, hdec, ht, hv, hvv] at hl
  · intro v ht hv hne
    simp [load_roster, hdec, ht, hv, hne]
  · intro ht hver
    rcases hver with h | h <;> simp [load_roster, hdec, ht, h]

/-- Witness for C1: a versioned rosters document is accepted and a
    game-typed document is rejected with `UnexpectedType("Game")`. -/
theorem load_roster_gate_witness :
    load_roster versionedRosterDoc = .ok versionedRosters ∧
    load_roster gameDoc = .error (.UnexpectedType "Game") :=
  ⟨(load_roster_gate versionedRosterDoc versionedRosters rfl).2.2.2 rfl
     (Or.inr rfl),
   (load_roster_gate gameDoc gameRosters rfl).1 (by decide)⟩

/-- C2: a document that decodes under the closed roster schema fails with
    `UnexpectedField` naming the field once a field outside the declared
    set is added; without the extra field it decodes successfully (the
    hypothesis). -/
theorem rosters_closed_schema (fields : List (String × Json)) (k : String)
    (v : Json) (r : Rosters)
    (hdec : decodeRosters (Json.obj fields) = .ok r)
    (hk : k ∉ rosterFieldNames) :
    decodeRosters (Json.obj (fields ++ [(k, v)])) =
      .error (.unexpectedField k) := by
  have hnone : fields.find? (fun f => !(rosterFieldNames.contains f.1)) = none := by
    cases hf : fields.find? (fun f => !(rosterFieldNames.contains f.1)) with
    | none => rfl
    | some f =>
      simp only [decodeRosters] at hdec
      rw [hf] at hdec
      simp at hdec
  simp only [decodeRosters]
  rw [find?_append_none _ hnone]
  simp [List.find?_cons, hk]

/-- Witness for C2: adding an unknown top-level field to the concrete
    roster document makes decoding fail naming that field. -/
theorem rosters_closed_schema_witness :
    decodeRosters (.obj (rosterDocFields ++ [("extra", .null)])) =
      .error (.unexpectedField "extra") :=
  rosters_closed_schema rosterDocFields "extra" .null homeRosters rfl
    (by decide)

/-- C3 counterexample: an object carrying both a `number` field and a
    `note` field (here even with Jam's full required shape) decodes as
    the Note variant, not the Jam variant, because the untagged enum
    declares and therefore tries Note first. -/
theorem clockEvent_note_wins_counterexample :
    decodeClockEvent (.obj [("number", .num 1), ("note", .str "x"),
      ("events", .arr []), ("notes", .arr [])]) =
      .ok (.Note { note := "x", author := none }) := rfl

/-- C3 amended: decoding a timeline entry tries the variants in the
    declaration order Note (requires `note`), then Jam (requires
    `number`, `events`, `notes`), then Timeout (requires `timeout` and
    `duration`), accepting the first structural match, so an object with
    both `number` and `note` decodes as Note; when all three fail the
    decode fails with a single untagged-mismatch error naming the enum,
    not the fields present. -/
theorem clockEvent_untagged_order :
    (∀ j n, decNoteS j = .ok n → decodeClockEvent j = .ok (.Note n)) ∧
    (∀ j e jm, decNoteS j = .error e → decJamS j = .ok jm →
      decodeClockEvent j = .ok (.Jam jm)) ∧
    (∀ j e e' t, decNoteS j = .error e → decJamS j = .error e' →
      decTimeoutS j = .ok t → decodeClockEvent j = .ok (.Timeout t)) ∧
    (∀ j e e' e'', decNoteS j = .error e → decJamS j = .error e' →
      decTimeoutS j = .error e'' →
      decodeClockEvent j = .error (.untaggedMismatch "ClockEvent")) ∧
    decodeClockEvent (.obj [("timeout", .str "Home"), ("duration", .num 30)]) =
      .ok (.Timeout ⟨.Home, [], none, ⟨30, by decide⟩, none, none, none, none⟩) ∧
    decodeClockEvent (.obj [("number", .num 1), ("events", .arr []),
      ("notes", .arr [])]) =
      .ok (.Jam ⟨⟨1, by decide⟩, none, none, [], []⟩) := by
  refine ⟨?_, ?_, ?_, ?_, rfl, rfl⟩
  · intro j n h
    simp [decodeClockEvent, h]
  · intro j e jm h1 h2
    simp [decodeClockEvent, h1, h2]
  · intro j e e' t h1 h2 h3
    simp [decodeClockEvent, h1, h2, h3]
  · intro j e e' e'' h1 h2 h3
    simp [decodeClockEvent, h1, h2, h3]

/-- Witness for C3 amended: a minimal timeout object falls through Note
    and Jam and decodes as Timeout. -/
theorem clockEvent_untagged_order_witness :
    decodeClockEvent (.obj [("timeout", .str "Home"), ("duration", .num 30)]) =
      .ok (.Timeout ⟨.Home, [], none, ⟨30, by decide⟩, none, none, none, none⟩) :=
  clockEvent_untagged_order.2.2.1 _ (.missingField "note")
    (.missingField "number") _ rfl rfl rfl

/-- C4: for every value of every JamEvent variant, decoding the encoding
    yields the value back; this covers in particular both the state with
    all optional fields set and the state with all of them absent. -/
theorem jamEvent_roundtrip (v : JamEvent) :
    decodeJamEvent (encodeJamEvent v) = .ok v := by
  cases v with
  | Lineup sk sib pos => exact rtLineup sk sib pos
  | PackLap ts c => exact rtPackLap ts c
  | Penalty ts sk p sv rs iv cue => exact rtPenalty ts sk p sv rs iv cue
  | Pass ts cp num pts sk gp => exact rtPass ts cp num pts sk gp
  | StarPass ts sk tm cp fl => exact rtStarPass ts sk tm cp fl
  | Lead ts sk => exact rtLead ts sk
  | LostLead ts sk => exact rtLostLead ts sk
  | Call ts sk tm ofc => exact rtCall ts sk tm ofc
  | EnterBox ts sk dur sub ns => exact rtEnterBox ts sk dur sub ns
  | ExitBox ts sk dur pm nsk => exact rtExitBox ts sk dur pm nsk
  | BoxTime => rfl
  | Injury ts sk => exact rtInjury ts sk
  | Note note author date ns => exact rtNoteEvent note author date ns
  | LeaveTrack ts sk rs op => exact rtLeaveTrack ts sk rs op
  | ReturnTrack ts sk op => exact rtReturnTrack ts sk op

/-- C5 counterexample: the jam-index variant of `Timestamp` is numeric,
    not string-valued — its encoding carries a number payload and a
    string payload under the `jam` key is rejected. -/
theorem timestamp_jam_numeric_counterexample :
    encodeTimestamp (.Jam 3) = .obj [("jam", .num 3)] ∧
    decodeTimestamp (.obj [("jam", .str "3")]) =
      .error (.typeMismatch "number") :=
  ⟨rfl, rfl⟩

/-- C5 amended: a `Timestamp` decodes from exactly one of five
    externally tagged shapes — three numeric (`epoch`, `seconds`, `jam`)
    and two string-valued (`wall`, `period`) — any other key fails, and
    every value encodes back to the shape it was constructed with. -/
theorem timestamp_five_shapes :
    (∀ t, decodeTimestamp (encodeTimestamp t) = .ok t) ∧
    (∀ s, encodeTimestamp (.Wall s) = .obj [("wall", .str s)]) ∧
    (∀ s, encodeTimestamp (.Period s) = .obj [("period", .str s)]) ∧
    (∀ n, encodeTimestamp (.Epoch n) = .obj [("epoch", .num n)]) ∧
    (∀ n, encodeTimestamp (.Seconds n) = .obj [("seconds", .num n)]) ∧
    (∀ n, encodeTimestamp (.Jam n) = .obj [("jam", .num n)]) ∧
    (∀ k v, k ∉ timestampKeys →
      decodeTimestamp (.obj [(k, v)]) = .error (.unknownVariant k)) := by
  refine ⟨?_, fun s => rfl, fun s => rfl, fun n => rfl, fun n => rfl,
    fun n => rfl, ?_⟩
  · intro t
    cases t <;> rfl
  · intro k v hk
    simp only [decodeTimestamp]
    split
    all_goals simp_all [timestampKeys]

/-- Witness for C5 amended: an unknown key is rejected. -/
theorem timestamp_five_shapes_witness :
    decodeTimestamp (.obj [("bogus", .null)]) =
      .error (.unknownVariant "bogus") :=
  timestamp_five_shapes.2.2.2.2.2.2 "bogus" .null (by decide)

/-- C6 counterexample: the Penalty variant's `involved` field is
    `Option`-typed, so a minimal penalty object decodes with `involved`
    as no-value, not an empty sequence; and encoding a value whose
    optional fields are all no-value emits every one of them as an
    explicit null rather than omitting it. -/
theorem optional_null_counterexample :
    decodeJamEvent (.obj [("event", .str "penalty"), ("skater", .str "A"),
      ("penalty", .str "X")]) =
      .ok (.Penalty none "A" "X" none none none none) ∧
    encodeJamEvent (.Penalty none "A" "X" none none none none) =
      .obj [("event", .str "penalty"), ("timestamp", .null),
            ("skater", .str "A"), ("penalty", .str "X"),
            ("severity", .null), ("rescinded", .null),
            ("involved", .null), ("cue", .null)] :=
  ⟨rfl, rfl⟩

/-- C6 amended: for every JamEvent variant, every field not marked
    required decodes to logical no-value when absent — the list-valued
    `involved`, `ghost_points` and `notes` fields included, which are
    Option-typed rather than defaulted, so they decode to no-value and
    never to an empty sequence — and, dually, encoding a variant whose
    optional fields are all no-value emits each of them as an explicit
    null entry, never omitting it. The Lineup and BoxTime variants
    declare no optional fields, so the property is vacuous for them;
    all thirteen remaining variants are enumerated, with the required
    payloads universally quantified. -/
theorem optional_fields_amended :
    (decodeJamEvent (.obj [("event", .str "pack lap")]) =
      .ok (.PackLap none none)) ∧
    (∀ sk p, decodeJamEvent (.obj [("event", .str "penalty"),
        ("skater", .str sk), ("penalty", .str p)]) =
      .ok (.Penalty none sk p none none none none)) ∧
    (∀ num : Fin 256, decodeJamEvent (.obj [("event", .str "pass"),
        ("number", encFin num)]) =
      .ok (.Pass none none num none none none)) ∧
    (decodeJamEvent (.obj [("event", .str "star pass")]) =
      .ok (.StarPass none none none none none)) ∧
    (∀ sk, decodeJamEvent (.obj [("event", .str "lead"),
        ("skater", .str sk)]) = .ok (.Lead none sk)) ∧
    (∀ sk, decodeJamEvent (.obj [("event", .str "lost lead"),
        ("skater", .str sk)]) = .ok (.LostLead none sk)) ∧
    (decodeJamEvent (.obj [("event", .str "call")]) =
      .ok (.Call none none none none)) ∧
    (∀ sk, decodeJamEvent (.obj [("event", .str "enter box"),
        ("skater", .str sk)]) =
      .ok (.EnterBox none sk none none none)) ∧
    (∀ sk, decodeJamEvent (.obj [("event", .str "exit box"),
        ("skater", .str sk)]) =
      .ok (.ExitBox none sk none none none)) ∧
    (∀ sk, decodeJamEvent (.obj [("event", .str "injury"),
        ("skater", .str sk)]) = .ok (.Injury none sk)) ∧
    (∀ note nv, decodeJamEvent (.obj [("event", .str "note"),
        ("note", .str note), ("notes", encNote nv)]) =
      .ok (.Note note none none nv)) ∧
    (∀ sk (op : Fin 256), decodeJamEvent (.obj [("event", .str "leave track"),
        ("skater", .str sk), ("opposing-pass", encFin op)]) =
      .ok (.LeaveTrack none sk none op)) ∧
    (∀ sk (op : Fin 256), decodeJamEvent (.obj [("event", .str "return track"),
        ("skater", .str sk), ("opposing-pass", encFin op)]) =
      .ok (.ReturnTrack none sk op)) ∧
    (encodeJamEvent (.PackLap none none) =
      .obj [("event", .str "pack lap"), ("timestamp", .null),
            ("count", .null)]) ∧
    (∀ sk p, encodeJamEvent (.Penalty none sk p none none none none) =
      .obj [("event", .str "penalty"), ("timestamp", .null),
            ("skater", .str sk), ("penalty", .str p),
            ("severity", .null), ("rescinded", .null),
            ("involved", .null), ("cue", .null)]) ∧
    (∀ num : Fin 256, encodeJamEvent (.Pass none none num none none none) =
      .obj [("event", .str "pass"), ("timestamp", .null),
            ("completed", .null), ("number", encFin num),
            ("points", .null), ("skater", .null),
            ("ghost_points", .null)]) ∧
    (encodeJamEvent (.StarPass none none none none none) =
      .obj [("event", .str "star pass"), ("timestamp", .null),
            ("skater", .null), ("team", .null), ("completed", .null),
            ("failure", .null)]) ∧
    (∀ sk, encodeJamEvent (.Lead none sk) =
      .obj [("event", .str "lead"), ("timestamp", .null),
            ("skater", .str sk)]) ∧
    (∀ sk, encodeJamEvent (.LostLead none sk) =
      .obj [("event", .str "lost lead"), ("timestamp", .null),
            ("skater", .str sk)]) ∧
    (encodeJamEvent (.Call none none none none) =
      .obj [("event", .str "call"), ("timestamp", .null),
            ("skater", .null), ("team", .null), ("official", .null)]) ∧
    (∀ sk, encodeJamEvent (.EnterBox none sk none none none) =
      .obj [("event", .str "enter box"), ("timestamp", .null),
            ("skater", .str sk), ("duration", .null),
            ("substitute", .null), ("notes", .null)]) ∧
    (∀ sk, encodeJamEvent (.ExitBox none sk none none none) =
      .obj [("event", .str "exit box"), ("timestamp", .null),
            ("skater", .str sk), ("duration", .null),
            ("premature", .null), ("no-skater", .null)]) ∧
    (∀ sk, encodeJamEvent (.Injury none sk) =
      .obj [("event", .str "injury"), ("timestamp", .null),
            ("skater", .str sk)]) ∧
    (∀ note nv, encodeJamEvent (.Note note none none nv) =
      .obj [("event", .str "note"), ("note", .str note),
            ("author", .null), ("date", .null), ("notes", encNote nv)]) ∧
    (∀ sk (op : Fin 256), encodeJamEvent (.LeaveTrack none sk none op) =
      .obj [("event", .str "leave track"), ("timestamp", .null),
            ("skater", .str sk), ("reason", .null),
            ("opposing-pass", encFin op)]) ∧
    (∀ sk (op : Fin 256), encodeJamEvent (.ReturnTrack none sk op) =
      .obj [("event", .str "return track"), ("timestamp", .null),
            ("skater", .str sk), ("opposing-pass", encFin op)]) := by
  refine ⟨rfl, fun _ _ => rfl, ?_, rfl, fun _ => rfl, fun _ => rfl, rfl,
    fun _ => rfl, fun _ => rfl, fun _ => rfl, ?_, ?_, ?_, rfl,
    fun _ _ => rfl, fun _ => rfl, rfl, fun _ => rfl, fun _ => rfl, rfl,
    fun _ => rfl, fun _ => rfl, fun _ => rfl, fun _ _ => rfl,
    fun _ _ => rfl, fun _ _ => rfl⟩
  · intro num
    simp [decodeJamEvent, lookupField, dispatchJamEvent, decPass,
          reqField, optField, rtFin, exceptBindOk, exceptPure]
  · intro note nv
    simp [decodeJamEvent, lookupField, dispatchJamEvent, decNoteEvent,
          reqField, optField, decString, rtNote, exceptBindOk, exceptPure]
  · intro sk op
    simp [decodeJamEvent, lookupField, dispatchJamEvent, decLeaveTrack,
          reqField, optField, decString, rtFin, exceptBindOk, exceptPure]
  · intro sk op
    simp [decodeJamEvent, lookupField, dispatchJamEvent, decReturnTrack,
          reqField, optField, decString, rtFin, exceptBindOk, exceptPure]

/-- C7: a roster document in which `uuid`, `notes` and `leagues` are all
    absent decodes with those three fields present as empty sequences,
    not as absent values. -/
theorem rosters_default_empty (fields : List (String × Json)) (r : Rosters)
    (hu : lookupField fields "uuid" = none)
    (hn : lookupField fields "notes" = none)
    (hl : lookupField fields "leagues" = none)
    (hdec : decodeRosters (Json.obj fields) = .ok r) :
    r.uuid = [] ∧ r.notes = [] ∧ r.leagues = [] := by
  simp only [decodeRosters] at hdec
  cases hf : fields.find? (fun f => !(rosterFieldNames.contains f.1)) with
  | some f =>
    rw [hf] at hdec
    simp at hdec
  | none =>
    rw [hf] at hdec
    simp only [defaultField, hu, hn, hl] at hdec
    rw [bind_eq_ok] at hdec
    obtain ⟨version, _, hdec⟩ := hdec
    rw [bind_eq_ok] at hdec
    obtain ⟨metadata, _, hdec⟩ := hdec
    rw [bind_eq_ok] at hdec
    obtain ⟨ot, _, hdec⟩ := hdec
    rw [bind_eq_ok] at hdec
    obtain ⟨teams, _, hdec⟩ := hdec
    simp only [exceptBindOk, exceptPure, Except.ok.injEq] at hdec
    subst hdec
    exact ⟨rfl, rfl, rfl⟩

/-- Witness for C7: the concrete roster document omits all three fields
    and decodes with them empty. -/
theorem rosters_default_empty_witness :
    homeRosters.uuid = [] ∧ homeRosters.notes = [] ∧
      homeRosters.leagues = [] :=
  rosters_default_empty rosterDocFields homeRosters rfl rfl rfl rfl

/-- C8: each of the 15 known `event` tag strings decodes (with that
    variant's required fields minimally present) to exactly that variant,
    and any other tag string fails with an unrecognized-event-kind error
    rather than being silently ignored. -/
theorem jamEvent_tag_exhaustive :
    decodeJamEvent (.obj [("event", .str "line up"), ("skater", .str "A"),
        ("start_in_box", .bool false), ("position", .str "jammer")]) =
      .ok (.Lineup "A" false .Jammer) ∧
    decodeJamEvent (.obj [("event", .str "pack lap")]) =
      .ok (.PackLap none none) ∧
    decodeJamEvent (.obj [("event", .str "penalty"), ("skater", .str "A"),
        ("penalty", .str "X")]) =
      .ok (.Penalty none "A" "X" none none none none) ∧
    decodeJamEvent (.obj [("event", .str "pass"), ("number", .num 1)]) =
      .ok (.Pass none none ⟨1, by decide⟩ none none none) ∧
    decodeJamEvent (.obj [("event", .str "star pass")]) =
      .ok (.StarPass none none none none none) ∧
    decodeJamEvent (.obj [("event", .str "lead"), ("skater", .str "A")]) =
      .ok (.Lead none "A") ∧
    decodeJamEvent (.obj [("event", .str "lost lead"), ("skater", .str "A")]) =
      .ok (.LostLead none "A") ∧
    decodeJamEvent (.obj [("event", .str "call")]) =
      .ok (.Call none none none none) ∧
    decodeJamEvent (.obj [("event", .str "enter box"), ("skater", .str "A")]) =
      .ok (.EnterBox none "A" none none none) ∧
    decodeJamEvent (.obj [("event", .str "exit box"), ("skater", .str "A")]) =
      .ok (.ExitBox none "A" none none none) ∧
    decodeJamEvent (.obj [("event", .str "box time")]) = .ok .BoxTime ∧
    decodeJamEvent (.obj [("event", .str "injury"), ("skater", .str "A")]) =
      .ok (.Injury none "A") ∧
    decodeJamEvent (.obj [("event", .str "note"), ("note", .str "x"),
        ("notes", .obj [("note", .str "y")])]) =
      .ok (.Note "x" none none { note := "y", author := none }) ∧
    decodeJamEvent (.obj [("event", .str "leave track"),
        ("skater", .str "A"), ("opposing-pass", .num 2)]) =
      .ok (.LeaveTrack none "A" none ⟨2, by decide⟩) ∧
    decodeJamEvent (.obj [("event", .str "return track"),
        ("skater", .str "A"), ("opposing-pass", .num 2)]) =
      .ok (.ReturnTrack none "A" ⟨2, by decide⟩) ∧
    (∀ tag fields, tag ∉ jamEventTags →
      decodeJamEvent (.obj (("event", Json.str tag) :: fields)) =
        .error (.unrecognizedEventKind tag)) := by
  refine ⟨rfl, rfl, rfl, rfl, rfl, rfl, rfl, rfl, rfl, rfl, rfl, rfl, rfl,
    rfl, rfl, ?_⟩
  intro tag fields htag
  have hlk : lookupField (("event", Json.str tag) :: fields) "event" =
      some (.str tag) := by
    simp [lookupField]
  simp only [decodeJamEvent, hlk]
  simp only [dispatchJamEvent]
  split
  all_goals simp_all [jamEventTags]

/-- Witness for C8: the tag "timeout" is not a jam-event tag and is
    rejected. -/
theorem jamEvent_tag_exhaustive_witness :
    decodeJamEvent (.obj [("event", Json.str "timeout")]) =
      .error (.unrecognizedEventKind "timeout") :=
  jamEvent_tag_exhaustive.2.2.2.2.2.2.2.2.2.2.2.2.2.2.2 "timeout" []
    (by decide)

/-- C9: the concrete input with type "rosters" and a single "Home" team
    with no persons loads successfully into a Rosters whose teams map has
    exactly that one entry, whose team has no persons, and whose version
    is absent. -/
theorem load_roster_concrete :
    load_roster rosterDoc = .ok homeRosters ∧
    homeRosters.teams = [("Home", homeTeam)] ∧
    homeTeam.persons = [] ∧
    homeRosters.version = none :=
  ⟨rfl, rfl, rfl, rfl⟩

/-- C10: for every teams map, `new_game` builds a document of type Game,
    version "0.2", two default (empty) periods, a period timer of 1800
    seconds counting down and not running, and the given teams. -/
theorem new_game_spec (t : List (String × Team)) :
    (DerbyJSON.new_game t).objecttype = ObjectType.Game ∧
    (DerbyJSON.new_game t).version = some "0.2" ∧
    (DerbyJSON.new_game t).periods = [defaultPeriod, defaultPeriod] ∧
    defaultPeriod.jams = [] ∧
    (DerbyJSON.new_game t).timers.period =
      { duration := ⟨1800, by decide⟩, counts_down := true,
        running := false } ∧
    (DerbyJSON.new_game t).teams = t :=
  ⟨rfl, rfl, rfl, rfl, rfl, rfl⟩

end DerbyJson
